import Mathlib

/-!
Verification of the edgecom time-series service (Go) against its
natural-language specification, via a shallow embedding in Lean 4.

Conventions of the embedding:
- Go `time.Time` instants are modelled as `Int` nanoseconds since the Unix
  epoch.  The Go zero value `time.Time{}` (January 1, year 1 UTC) and the
  Unix-epoch sentinel `time.Unix(0,0)` are the two distinct designated
  constants `goZeroTime` and `unixEpochTime`.
- Go `float64` payload values are never computed with by the code under
  study (they are only carried through); they are modelled as opaque `Int`
  tokens so that equality is decidable.
- Fallible Go functions returning `error` are modelled with `Option String`
  (the error message, `none` = nil) or `Except String α`.
- gRPC status errors are a pair of a status code and a message.
-/

/-- gRPC status codes used by this service. -/
inductive Code where
  | invalidArgument
  | internal
  | resourceExhausted
  | notFound
  | unimplemented
  deriving DecidableEq, Repr

/-- A gRPC status error: `status.Errorf(code, msg)`. -/
structure StatusErr where
  code : Code
  msg : String
  deriving DecidableEq, Repr

/-! ## Request validator (src/internal/grpc/middlewares/logging.go, package server part) -/

/-- Go: `const maxTimeRange = 2 * 365 * 24 * time.Hour`, in nanoseconds. -/
def maxTimeRange : Int := 2 * 365 * 24 * 60 * 60 * 1000000000

/-- The Go zero `time.Time{}` (January 1, year 1 UTC) as nanoseconds since epoch. -/
def goZeroTime : Int := -62135596800 * 1000000000

/-- `time.Unix(0, 0)`: the Unix epoch. -/
def unixEpochTime : Int := 0

/-- Go struct `RequestValidator` with its two membership maps
(`map[string]bool`, modelled as the list of keys mapped to `true`). -/
structure RequestValidator where
  validWindows : List String
  validAggregations : List String
  deriving Repr

/-- Go `NewRequestValidator`: the supported windows and aggregations. -/
def NewRequestValidator : RequestValidator where
  validWindows := ["1m", "5m", "1h", "1d"]
  validAggregations := ["MIN", "MAX", "AVG", "SUM"]

/-- Go `(*RequestValidator).Validate(start, end, window, aggregation) error`.
`none` models a nil error; `some m` models an error with message `m`.
The branch structure mirrors the Go function line by line:
zero/epoch timestamps, `start.After(end)`, `end.Sub(start) > maxTimeRange`,
empty window, unsupported window, empty aggregation, unsupported aggregation. -/
def Validate (v : RequestValidator) (start endT : Int) (window aggregation : String) :
    Option String :=
  if start = goZeroTime ∨ endT = goZeroTime ∨ start = unixEpochTime ∨ endT = unixEpochTime then
    some "missing timestamp"
  else if endT < start then
    some "start time must be before end time"
  else if maxTimeRange < endT - start then
    some "time range exceeds maximum allowed"
  else if window = "" then
    some "invalid window: "
  else if window ∉ v.validWindows then
    some ("invalid window: " ++ window)
  else if aggregation = "" then
    some "invalid aggregation"
  else if aggregation ∉ v.validAggregations then
    some ("invalid aggregation: " ++ aggregation)
  else
    none

/-- A timestamp is "set" when it is neither the Go zero value nor the epoch sentinel. -/
def tsIsSet (t : Int) : Prop := t ≠ goZeroTime ∧ t ≠ unixEpochTime

instance (t : Int) : Decidable (tsIsSet t) := by
  unfold tsIsSet; infer_instance

lemma validate_not_missing {s e : Int} (hs : tsIsSet s) (he : tsIsSet e) :
    ¬ (s = goZeroTime ∨ e = goZeroTime ∨ s = unixEpochTime ∨ e = unixEpochTime) := by
  push_neg
  exact ⟨hs.1, he.1, hs.2, he.2⟩

lemma mem_validWindows_ne_empty {w : String}
    (hw : w ∈ NewRequestValidator.validWindows) : w ≠ "" := by
  have : w = "1m" ∨ w = "5m" ∨ w = "1h" ∨ w = "1d" := by
    simpa [NewRequestValidator] using hw
  rcases this with h | h | h | h <;> subst h <;> decide

lemma mem_validAggregations_ne_empty {a : String}
    (ha : a ∈ NewRequestValidator.validAggregations) : a ≠ "" := by
  have : a = "MIN" ∨ a = "MAX" ∨ a = "AVG" ∨ a = "SUM" := by
    simpa [NewRequestValidator] using ha
  rcases this with h | h | h | h <;> subst h <;> decide

/-- C1 counterexample: at `start = end = 1` (a set timestamp) with otherwise
valid parameters, `Validate` returns no error at all, so it does not return
the `InvalidRange` message claimed for every pair with `start >= end`. -/
theorem C1_start_eq_end_accepted :
    Validate NewRequestValidator 1 1 "1h" "AVG" = none ∧
    tsIsSet 1 ∧ (1 : Int) ≥ 1 :=
  ⟨by decide, by decide, le_refl 1⟩

/-- C1 (amended): for set timestamps with `start` strictly after `end`,
`Validate` returns exactly "start time must be before end time"; the
boundary `start = end` passes the range-order rule (see the counterexample). -/
theorem C1_strict_range_error (s e : Int) (w a : String)
    (hs : tsIsSet s) (he : tsIsSet e) (hlt : e < s) :
    Validate NewRequestValidator s e w a = some "start time must be before end time" := by
  unfold Validate
  rw [if_neg (validate_not_missing hs he), if_pos hlt]

/-- Witness for C1's amended theorem at `start = 2`, `end = 1`. -/
theorem C1_strict_range_error_witness :
    Validate NewRequestValidator 2 1 "1h" "AVG" = some "start time must be before end time" :=
  C1_strict_range_error 2 1 "1h" "AVG" (by decide) (by decide) (by decide)

/-- C6: `Validate` checks its rules in the fixed order
missing-timestamp, range order, maximum range, window, aggregation, first
failure deciding the result: (a) a zero/epoch timestamp yields exactly
"missing timestamp" whatever the other parameters; (b) with set, ordered
timestamps whose span exceeds 2 years, exactly "time range exceeds maximum
allowed"; (c) when the earlier rules pass, an unsupported window yields
exactly "invalid window: <window>" (the empty window giving
"invalid window: "); (d) when those pass too, an unsupported aggregation
yields "invalid aggregation: <aggregation>", the empty aggregation exactly
"invalid aggregation" with no trailing colon; (e) when every rule passes,
no error. -/
theorem C6_validate_rule_order :
    (∀ s e w a, (s = goZeroTime ∨ e = goZeroTime ∨ s = unixEpochTime ∨ e = unixEpochTime) →
      Validate NewRequestValidator s e w a = some "missing timestamp") ∧
    (∀ s e w a, tsIsSet s → tsIsSet e → s ≤ e → maxTimeRange < e - s →
      Validate NewRequestValidator s e w a = some "time range exceeds maximum allowed") ∧
    (∀ s e w a, tsIsSet s → tsIsSet e → s ≤ e → e - s ≤ maxTimeRange →
      w ∉ NewRequestValidator.validWindows →
      Validate NewRequestValidator s e w a = some ("invalid window: " ++ w)) ∧
    (∀ s e w a, tsIsSet s → tsIsSet e → s ≤ e → e - s ≤ maxTimeRange →
      w ∈ NewRequestValidator.validWindows →
      a ∉ NewRequestValidator.validAggregations →
      Validate NewRequestValidator s e w a =
        some (if a = "" then "invalid aggregation" else "invalid aggregation: " ++ a)) ∧
    (∀ s e w a, tsIsSet s → tsIsSet e → s ≤ e → e - s ≤ maxTimeRange →
      w ∈ NewRequestValidator.validWindows →
      a ∈ NewRequestValidator.validAggregations →
      Validate NewRequestValidator s e w a = none) := by
  refine ⟨?_, ?_, ?_, ?_, ?_⟩
  · intro s e w a h
    unfold Validate
    rw [if_pos h]
  · intro s e w a hs he hle hbig
    unfold Validate
    rw [if_neg (validate_not_missing hs he), if_neg (not_lt.mpr hle), if_pos hbig]
  · intro s e w a hs he hle hsmall hw
    unfold Validate
    rw [if_neg (validate_not_missing hs he), if_neg (not_lt.mpr hle),
      if_neg (not_lt.mpr hsmall)]
    by_cases hwe : w = ""
    · subst hwe
      rw [if_pos rfl]
      simp
    · rw [if_neg hwe, if_pos hw]
  · intro s e w a hs he hle hsmall hw ha
    unfold Validate
    rw [if_neg (validate_not_missing hs he), if_neg (not_lt.mpr hle),
      if_neg (not_lt.mpr hsmall), if_neg (mem_validWindows_ne_empty hw),
      if_neg (not_not_intro hw)]
    by_cases hae : a = ""
    · subst hae
      rw [if_pos rfl, if_pos rfl]
    · rw [if_neg hae, if_pos ha, if_neg hae]
  · intro s e w a hs he hle hsmall hw ha
    unfold Validate
    rw [if_neg (validate_not_missing hs he), if_neg (not_lt.mpr hle),
      if_neg (not_lt.mpr hsmall), if_neg (mem_validWindows_ne_empty hw),
      if_neg (not_not_intro hw), if_neg (mem_validAggregations_ne_empty ha),
      if_neg (not_not_intro ha)]

/-- Witness for C6, exercising every conjunct at concrete inputs. -/
theorem C6_validate_rule_order_witness :
    Validate NewRequestValidator unixEpochTime 5 "zz" "" = some "missing timestamp" ∧
    Validate NewRequestValidator 1 (1 + maxTimeRange + 1) "1h" "AVG" =
      some "time range exceeds maximum allowed" ∧
    Validate NewRequestValidator 1 2 "2h" "AVG" = some ("invalid window: " ++ "2h") ∧
    Validate NewRequestValidator 1 2 "1h" "" =
      some (if "" = "" then "invalid aggregation" else "invalid aggregation: " ++ "") ∧
    Validate NewRequestValidator 1 2 "1h" "AVG" = none :=
  ⟨C6_validate_rule_order.1 unixEpochTime 5 "zz" "" (by tauto),
    C6_validate_rule_order.2.1 1 (1 + maxTimeRange + 1) "1h" "AVG"
      (by decide) (by decide) (by decide) (by decide),
    C6_validate_rule_order.2.2.1 1 2 "2h" "AVG" (by decide) (by decide) (by decide)
      (by decide) (by decide),
    C6_validate_rule_order.2.2.2.1 1 2 "1h" "" (by decide) (by decide) (by decide)
      (by decide) (by decide) (by decide),
    C6_validate_rule_order.2.2.2.2 1 2 "1h" "AVG" (by decide) (by decide) (by decide)
      (by decide) (by decide) (by decide)⟩

/-! ## Protobuf request/response types (proto/timeseries.proto) -/

/-- `pb.TimeSeriesRequest`: start/end proto timestamps plus window and
aggregation strings. -/
structure TimeSeriesRequest where
  start : Int
  endT : Int
  window : String
  aggregation : String
  deriving DecidableEq, Repr

/-- `pb.TimeSeriesDataPoint`: a proto timestamp and a float64 value (opaque). -/
structure TimeSeriesDataPoint where
  time : Int
  value : Int
  deriving DecidableEq, Repr

/-- `pb.TimeSeriesResponse`: the ordered list of aggregated points. -/
structure TimeSeriesResponse where
  data : List TimeSeriesDataPoint
  deriving DecidableEq, Repr

/-- A repository row (`internal/database` point with `Time`/`Value` fields). -/
structure DataPoint where
  time : Int
  value : Int
  deriving DecidableEq, Repr

/-! ## LRU cache (src/internal/grpc/middlewares/cache.go, hashicorp/golang-lru) -/

/-- The hashicorp `lru.Cache` used by the caching middleware: a bounded map,
entries most-recently-used first. -/
structure LruCache where
  capacity : Nat
  entries : List (String × TimeSeriesResponse)
  deriving DecidableEq, Repr

/-- `lru.Cache.Get`: on a hit the entry moves to the front (recency update);
a miss leaves the cache untouched. -/
def lruGet (c : LruCache) (k : String) : Option TimeSeriesResponse × LruCache :=
  match c.entries.find? (fun p => p.1 == k) with
  | none => (none, c)
  | some p => (some p.2, ⟨c.capacity, (k, p.2) :: c.entries.filter (fun q => q.1 != k)⟩)

/-- `lru.Cache.Add`: insert/update at the front; when over capacity, evict
the least-recently-used (last) entry. -/
def lruAdd (c : LruCache) (k : String) (v : TimeSeriesResponse) : LruCache :=
  let ents := (k, v) :: c.entries.filter (fun q => q.1 != k)
  ⟨c.capacity, if c.capacity < ents.length then ents.dropLast else ents⟩

/-- Go `middleware.NewCache(size)`: `lru.New` rejects a non-positive size. -/
def NewCache (size : Nat) : Except String LruCache :=
  if size = 0 then .error "must provide a positive size"
  else .ok ⟨size, []⟩

/-! ## Interceptor pipeline -/

/-- The per-request context: carries the request id injected by
`ContextMiddleware` (`ctx.Value(requestIDKey)`). -/
structure GrpcCtx where
  requestID : Option String
  deriving DecidableEq, Repr

/-- Modelled from the spec: the state of the shared `golang.org/x/time/rate`
token bucket (its implementation is an external library; §4.4 of the spec
gives its contract).  Tokens are float64 in the library; every quantity in
the specified scenarios is integral (rate 5, burst 10, one token per
admission, zero elapsed time), so they are modelled exactly as integers.
`rate` is the sustained refill rate per second, `burst` the cap. -/
structure LimiterState where
  rate : Int
  burst : Nat
  tokens : Int
  deriving DecidableEq, Repr

/-- A structured log line produced by the logging middleware
(`request_id`, `method`, and the error of the downstream call, nil = `none`). -/
structure LogEntry where
  requestID : String
  method : String
  errMsg : Option String
  deriving DecidableEq, Repr

/-- The mutable process-wide state touched by the interceptor chain: the
shared rate limiter, the shared response cache, the two Prometheus metric
families (count per method; one entry per latency observation), the log
sink, and an instrumentation counter of handler invocations used to state
"invoked exactly once" theorems. -/
structure World where
  limiter : LimiterState
  cache : LruCache
  requestsTotal : List (String × Nat)
  latencySamples : List String
  logs : List LogEntry
  handlerCalls : Nat
  deriving DecidableEq, Repr

/-- `grpc.UnaryHandler`, with the shared state threaded explicitly. -/
abbrev Handler :=
  GrpcCtx → TimeSeriesRequest → World → Except StatusErr TimeSeriesResponse × World

/-- `grpc.UnaryServerInterceptor`: receives the method name
(`info.FullMethod`) and the next stage. -/
abbrev Interceptor := String → Handler → Handler

/-- A downstream handler that is pure in the shared state (the actual
service handler never touches the middleware state). -/
def liftHandler (h : GrpcCtx → TimeSeriesRequest → Except StatusErr TimeSeriesResponse) :
    Handler :=
  fun ctx req w => (h ctx req, w)

/-- A pure handler instrumented to count its invocations, for stating
"invoked exactly once" properties. -/
def countingHandler (h : GrpcCtx → TimeSeriesRequest → Except StatusErr TimeSeriesResponse) :
    Handler :=
  fun ctx req w => (h ctx req, { w with handlerCalls := w.handlerCalls + 1 })

/-- `uuid.NewString()` modelled as an opaque constant (no claim depends on
uniqueness of request ids). -/
def generateRequestID : String := "00000000-0000-0000-0000-000000000000"

/-- Go `middleware.ContextMiddleware`: injects a generated request id into
the context and passes through. -/
def ContextMiddleware : Interceptor :=
  fun _method handler ctx req w =>
    handler { ctx with requestID := some generateRequestID } req w

/-- Modelled from the spec: `rate.Limiter.Allow` (external library, spec
§4.4): atomically consume one token when at least one is available;
otherwise refuse without consuming. -/
def limiterAllow (s : LimiterState) : Bool × LimiterState :=
  if 1 ≤ s.tokens then (true, { s with tokens := s.tokens - 1 })
  else (false, s)

/-- Modelled from the spec: continuous refill at `rate` tokens/second up to
the burst cap (spec §4.4); unused while no time elapses. -/
def limiterAdvance (elapsedSeconds : Int) (s : LimiterState) : LimiterState :=
  { s with tokens := min (s.burst : Int) (s.tokens + s.rate * elapsedSeconds) }

/-- Modelled from the spec: `rate.NewLimiter(r, b)` starts with a full
bucket of `b` tokens.  (`middleware.NewRateLimiter` itself is not under
src/; only its call sites are.) -/
def NewRateLimiter (r : Int) (b : Nat) : LimiterState :=
  ⟨r, b, (b : Int)⟩

/-- Go `middleware.RateLimitingInterceptor`
(src/internal/grpc/middlewares/rate_limiter.go): on `!limiter.Allow()`
return a resource-exhausted status error without calling the handler. -/
def RateLimitingInterceptor : Interceptor :=
  fun _method handler ctx req w =>
    match limiterAllow w.limiter with
    | (true, l) => handler ctx req { w with limiter := l }
    | (false, l) =>
        (.error ⟨.resourceExhausted, "rate limit exceeded"⟩, { w with limiter := l })

/-- The error field of the `log.Printf` line (`error: %v`, nil = `none`). -/
def resultErrMsg (r : Except StatusErr TimeSeriesResponse) : Option String :=
  match r with
  | .error e => some e.msg
  | .ok _ => none

/-- Go `middleware.LoggingInterceptor`: read the request id, run the
handler, log one line, return the handler's pair unchanged. -/
def LoggingInterceptor : Interceptor :=
  fun method handler ctx req w =>
    let requestID := ctx.requestID.getD ""
    let r := handler ctx req w
    (r.1, { r.2 with logs := r.2.logs ++ [⟨requestID, method, resultErrMsg r.1⟩] })

/-- `prometheus.CounterVec.WithLabelValues(method).Inc()` over an
association list keyed by method. -/
def bumpCount (method : String) : List (String × Nat) → List (String × Nat)
  | [] => [(method, 1)]
  | (m, n) :: rest =>
      if m = method then (m, n + 1) :: rest else (m, n) :: bumpCount method rest

/-- Go `middleware.MetricsInterceptor`: run the handler, observe one
latency sample and one count increment for the method (also on error),
return the handler's pair unchanged. -/
def MetricsInterceptor : Interceptor :=
  fun method handler ctx req w =>
    let r := handler ctx req w
    (r.1, { r.2 with
              latencySamples := r.2.latencySamples ++ [method],
              requestsTotal := bumpCount method r.2.requestsTotal })

/-- `json.Marshal` of the request, per the protobuf field layout. -/
def jsonMarshalRequest (r : TimeSeriesRequest) : String :=
  "\x7b\"start\":" ++ toString r.start ++ ",\"end\":" ++ toString r.endT ++
    ",\"window\":\"" ++ r.window ++ "\",\"aggregation\":\"" ++ r.aggregation ++ "\"\x7d"

/-- Go `generateCacheKey(method, req)`: `"%s:%s"` of method and the JSON
serialization of the request. -/
def generateCacheKey (method : String) (req : TimeSeriesRequest) : String :=
  method ++ ":" ++ jsonMarshalRequest req

/-- Go `(*Cache).InterceptorFunc()` (src/internal/grpc/middlewares/cache.go):
hit → return cached value without calling the handler; miss → call the
handler; on error return the error without touching the cache; on success
`Add` and return. -/
def CacheInterceptorFunc : Interceptor :=
  fun method handler ctx req w =>
    let key := generateCacheKey method req
    match lruGet w.cache key with
    | (some cached, c) => (.ok cached, { w with cache := c })
    | (none, c) =>
        match handler ctx req { w with cache := c } with
        | (.error e, w1) => (.error e, w1)
        | (.ok resp, w1) => (.ok resp, { w1 with cache := lruAdd w1.cache key resp })

/-- Go `chainUnaryInterceptors` (src/internal/grpc/server.go): fold the
interceptor list from the last to the first around the handler, so the
first listed interceptor ends up outermost. -/
def chainUnaryInterceptors (interceptors : List Interceptor) : Interceptor :=
  fun method handler => interceptors.foldr (fun i acc => i method acc) handler

/-- The interceptor list installed by `SetupServerWithRegistry`
(src/internal/grpc/server.go lines 186-194).  The instance-based
`rateLimiter.InterceptorFunc()` and `NewMetricsInterceptor(requests,
latency)` are not under src/; they are modelled from the spec (§4.4, §4.5)
and the identical free functions `RateLimitingInterceptor` and
`MetricsInterceptor` that are. -/
def configuredInterceptors : List Interceptor :=
  [ContextMiddleware, RateLimitingInterceptor, LoggingInterceptor,
   MetricsInterceptor, CacheInterceptorFunc]

/-! ## Lemmas about the LRU cache -/

lemma lruGet_miss {c : LruCache} {k : String} (h : (lruGet c k).1 = none) :
    lruGet c k = (none, c) := by
  unfold lruGet at h ⊢
  cases hf : c.entries.find? (fun p => p.1 == k) with
  | none => simp only [hf]
  | some p => simp [hf] at h

lemma find?_key_cons_self (k : String) (v : TimeSeriesResponse)
    (l : List (String × TimeSeriesResponse)) :
    ((k, v) :: l).find? (fun p => p.1 == k) = some (k, v) :=
  List.find?_cons_of_pos _ (by simp)

lemma lruAdd_entries_cons (c : LruCache) (k : String) (v : TimeSeriesResponse)
    (hcap : 1 ≤ c.capacity) :
    ∃ l, (lruAdd c k v).entries = (k, v) :: l := by
  show ∃ l,
    (if c.capacity < ((k, v) :: c.entries.filter (fun q => q.1 != k)).length then
      ((k, v) :: c.entries.filter (fun q => q.1 != k)).dropLast
    else
      (k, v) :: c.entries.filter (fun q => q.1 != k)) = (k, v) :: l
  by_cases hover : c.capacity < ((k, v) :: c.entries.filter (fun q => q.1 != k)).length
  · rw [if_pos hover]
    cases hf : c.entries.filter (fun q => q.1 != k) with
    | nil =>
      rw [hf] at hover
      simp at hover
      omega
    | cons q rest =>
      exact ⟨(q :: rest).dropLast, rfl⟩
  · rw [if_neg hover]
    exact ⟨_, rfl⟩

lemma lruGet_lruAdd_self (c : LruCache) (k : String) (v : TimeSeriesResponse)
    (hcap : 1 ≤ c.capacity) :
    (lruGet (lruAdd c k v) k).1 = some v := by
  obtain ⟨l, hl⟩ := lruAdd_entries_cons c k v hcap
  unfold lruGet
  rw [hl, find?_key_cons_self]

/-- C3: a request whose downstream handler errors leaves the cache (and the
whole middleware state) unchanged: the interceptor returns the error as-is
and a subsequent lookup of the request's fingerprint key is still a miss. -/
theorem C3_errors_never_cached
    (method : String)
    (h : GrpcCtx → TimeSeriesRequest → Except StatusErr TimeSeriesResponse)
    (ctx : GrpcCtx) (req : TimeSeriesRequest) (w : World) (e : StatusErr)
    (hmiss : (lruGet w.cache (generateCacheKey method req)).1 = none)
    (herr : h ctx req = .error e) :
    CacheInterceptorFunc method (liftHandler h) ctx req w = (.error e, w) ∧
    (lruGet (CacheInterceptorFunc method (liftHandler h) ctx req w).2.cache
      (generateCacheKey method req)).1 = none := by
  have hm := lruGet_miss hmiss
  have hres : CacheInterceptorFunc method (liftHandler h) ctx req w = (.error e, w) := by
    simp only [CacheInterceptorFunc, hm, liftHandler, herr]
  exact ⟨hres, by rw [hres]; exact hmiss⟩

/-- Witness for C3 at a concrete request, empty cache and failing handler. -/
theorem C3_errors_never_cached_witness :
    CacheInterceptorFunc "m" (liftHandler (fun _ _ => .error ⟨.internal, "boom"⟩))
      ⟨none⟩ ⟨1, 2, "1h", "AVG"⟩ ⟨⟨5, 10, 10⟩, ⟨1000, []⟩, [], [], [], 0⟩ =
      (.error ⟨.internal, "boom"⟩, ⟨⟨5, 10, 10⟩, ⟨1000, []⟩, [], [], [], 0⟩) :=
  (C3_errors_never_cached "m" (fun _ _ => .error ⟨.internal, "boom"⟩)
    ⟨none⟩ ⟨1, 2, "1h", "AVG"⟩ ⟨⟨5, 10, 10⟩, ⟨1000, []⟩, [], [], [], 0⟩
    ⟨.internal, "boom"⟩ (by decide) rfl).1

/-- C9: the same request processed twice through the caching interceptor,
the first downstream invocation succeeding, yields the identical response
both times; the second call is served from the cache without invoking any
downstream handler (its result is the cached value for every handler). -/
theorem C9_cache_idempotent
    (method : String)
    (h : GrpcCtx → TimeSeriesRequest → Except StatusErr TimeSeriesResponse)
    (ctx : GrpcCtx) (req : TimeSeriesRequest) (w : World) (resp : TimeSeriesResponse)
    (hcap : 1 ≤ w.cache.capacity)
    (hmiss : (lruGet w.cache (generateCacheKey method req)).1 = none)
    (hok : h ctx req = .ok resp) :
    (CacheInterceptorFunc method (liftHandler h) ctx req w).1 = .ok resp ∧
    (∀ h2 : Handler,
      (CacheInterceptorFunc method h2 ctx req
        (CacheInterceptorFunc method (liftHandler h) ctx req w).2).1 = .ok resp) := by
  have hm := lruGet_miss hmiss
  have hfirst : CacheInterceptorFunc method (liftHandler h) ctx req w =
      (.ok resp, { w with cache := lruAdd w.cache (generateCacheKey method req) resp }) := by
    simp only [CacheInterceptorFunc, hm, liftHandler, hok]
  constructor
  · rw [hfirst]
  · intro h2
    rw [hfirst]
    have hhit : (lruGet (lruAdd w.cache (generateCacheKey method req) resp)
        (generateCacheKey method req)).1 = some resp := lruGet_lruAdd_self _ _ _ hcap
    cases hg : lruGet (lruAdd w.cache (generateCacheKey method req) resp)
        (generateCacheKey method req) with
    | mk a c2 =>
      rw [hg] at hhit
      simp only [Prod.fst] at hhit
      subst hhit
      simp only [CacheInterceptorFunc, hg]

/-- Witness for C9: a concrete request against an empty cache of capacity
1000 with a succeeding handler. -/
theorem C9_cache_idempotent_witness :
    (CacheInterceptorFunc "m" (liftHandler (fun _ _ => .ok ⟨[⟨7, 42⟩]⟩))
      ⟨none⟩ ⟨1, 2, "1h", "AVG"⟩ ⟨⟨5, 10, 10⟩, ⟨1000, []⟩, [], [], [], 0⟩).1 =
      .ok ⟨[⟨7, 42⟩]⟩ ∧
    (∀ h2 : Handler,
      (CacheInterceptorFunc "m" h2 ⟨none⟩ ⟨1, 2, "1h", "AVG"⟩
        (CacheInterceptorFunc "m" (liftHandler (fun _ _ => .ok ⟨[⟨7, 42⟩]⟩))
          ⟨none⟩ ⟨1, 2, "1h", "AVG"⟩ ⟨⟨5, 10, 10⟩, ⟨1000, []⟩, [], [], [], 0⟩).2).1 =
        .ok ⟨[⟨7, 42⟩]⟩) :=
  C9_cache_idempotent "m" (fun _ _ => .ok ⟨[⟨7, 42⟩]⟩) ⟨none⟩ ⟨1, 2, "1h", "AVG"⟩
    ⟨⟨5, 10, 10⟩, ⟨1000, []⟩, [], [], [], 0⟩ ⟨[⟨7, 42⟩]⟩
    (by decide) (by decide) rfl

/-- C10: the logging and metrics interceptors each invoke the downstream
handler exactly once and return exactly the pair the handler produced, in
both the success and the error case, leaving every other piece of shared
state untouched; the metrics interceptor additionally records exactly one
count increment and one latency observation for the method on every call,
including errored ones. -/
theorem C10_logging_metrics_passthrough
    (method : String)
    (h : GrpcCtx → TimeSeriesRequest → Except StatusErr TimeSeriesResponse)
    (ctx : GrpcCtx) (req : TimeSeriesRequest) (w : World) :
    LoggingInterceptor method (countingHandler h) ctx req w =
      (h ctx req,
        { w with
            handlerCalls := w.handlerCalls + 1,
            logs := w.logs ++ [⟨ctx.requestID.getD "", method, resultErrMsg (h ctx req)⟩] }) ∧
    MetricsInterceptor method (countingHandler h) ctx req w =
      (h ctx req,
        { w with
            handlerCalls := w.handlerCalls + 1,
            latencySamples := w.latencySamples ++ [method],
            requestsTotal := bumpCount method w.requestsTotal }) :=
  ⟨rfl, rfl⟩

/-- C4: `chainUnaryInterceptors` composes its list with the first
interceptor outermost and the last innermost (the empty chain is the bare
handler); the configured list unfolds to identity-tagging → rate-limiting →
logging → metrics → caching → handler; and when the token bucket is empty a
rate-limit rejection short-circuits the whole chain: the result is the
resource-exhausted error for every downstream handler, and the cache,
metrics and log state are returned exactly unchanged. -/
theorem C4_chain_composition :
    (∀ (i : Interceptor) (rest : List Interceptor) (method : String) (h : Handler),
      chainUnaryInterceptors (i :: rest) method h =
        i method (chainUnaryInterceptors rest method h)) ∧
    (∀ (method : String) (h : Handler), chainUnaryInterceptors [] method h = h) ∧
    (∀ (method : String) (h : Handler),
      chainUnaryInterceptors configuredInterceptors method h =
        ContextMiddleware method (RateLimitingInterceptor method (LoggingInterceptor method
          (MetricsInterceptor method (CacheInterceptorFunc method h))))) ∧
    (∀ (method : String) (h : Handler) (ctx : GrpcCtx) (req : TimeSeriesRequest) (w : World),
      w.limiter.tokens < 1 →
      chainUnaryInterceptors configuredInterceptors method h ctx req w =
        (.error ⟨.resourceExhausted, "rate limit exceeded"⟩, w)) := by
  refine ⟨fun i rest method h => rfl, fun method h => rfl, fun method h => rfl, ?_⟩
  intro method h ctx req w hlt
  have hallow : limiterAllow w.limiter = (false, w.limiter) := by
    unfold limiterAllow
    rw [if_neg (not_le.mpr hlt)]
  simp only [chainUnaryInterceptors, configuredInterceptors, List.foldr, ContextMiddleware,
    RateLimitingInterceptor, hallow]

/-- Witness for C4's short-circuit conjunct: an empty bucket, a concrete
request and a handler that would error if it were ever reached. -/
theorem C4_chain_composition_witness :
    chainUnaryInterceptors configuredInterceptors "m"
      (liftHandler (fun _ _ => .error ⟨.internal, "boom"⟩))
      ⟨none⟩ ⟨1, 2, "1h", "AVG"⟩ ⟨⟨5, 10, 0⟩, ⟨1000, []⟩, [], [], [], 0⟩ =
      (.error ⟨.resourceExhausted, "rate limit exceeded"⟩,
        ⟨⟨5, 10, 0⟩, ⟨1000, []⟩, [], [], [], 0⟩) :=
  C4_chain_composition.2.2.2 "m" (liftHandler (fun _ _ => .error ⟨.internal, "boom"⟩))
    ⟨none⟩ ⟨1, 2, "1h", "AVG"⟩ ⟨⟨5, 10, 0⟩, ⟨1000, []⟩, [], [], [], 0⟩ (by decide)

/-- Running `n` consecutive `Allow` checks with no elapsed time in between. -/
def runAllow : Nat → LimiterState → List Bool × LimiterState
  | 0, s => ([], s)
  | n + 1, s =>
      let r1 := limiterAllow s
      let r2 := runAllow n r1.2
      (r1.1 :: r2.1, r2.2)

/-- C5: the token bucket configured at rate 5/s with burst 10 admits
exactly 10 of 11 back-to-back checks and refuses the 11th; an admission
refusal makes the rate-limiting interceptor return a resource-exhausted
status error with the state otherwise unchanged, for every downstream
handler (the handler is never invoked). -/
theorem C5_rate_limit_burst :
    ((runAllow 11 (NewRateLimiter 5 10)).1.count true = 10) ∧
    ((runAllow 11 (NewRateLimiter 5 10)).1.getLast? = some false) ∧
    (∀ (method : String) (h : Handler) (ctx : GrpcCtx) (req : TimeSeriesRequest) (w : World),
      w.limiter.tokens < 1 →
      RateLimitingInterceptor method h ctx req w =
        (.error ⟨.resourceExhausted, "rate limit exceeded"⟩, w)) := by
  refine ⟨by decide, by decide, ?_⟩
  intro method h ctx req w hlt
  have hallow : limiterAllow w.limiter = (false, w.limiter) := by
    unfold limiterAllow
    rw [if_neg (not_le.mpr hlt)]
  simp only [RateLimitingInterceptor, hallow]

/-- Witness for C5's interceptor conjunct at an empty bucket. -/
theorem C5_rate_limit_burst_witness :
    RateLimitingInterceptor "m" (liftHandler (fun _ _ => .ok ⟨[]⟩))
      ⟨none⟩ ⟨1, 2, "1h", "AVG"⟩ ⟨⟨5, 10, 0⟩, ⟨1000, []⟩, [], [], [], 0⟩ =
      (.error ⟨.resourceExhausted, "rate limit exceeded"⟩,
        ⟨⟨5, 10, 0⟩, ⟨1000, []⟩, [], [], [], 0⟩) :=
  C5_rate_limit_burst.2.2 "m" (liftHandler (fun _ _ => .ok ⟨[]⟩))
    ⟨none⟩ ⟨1, 2, "1h", "AVG"⟩ ⟨⟨5, 10, 0⟩, ⟨1000, []⟩, [], [], [], 0⟩ (by decide)

/-! ## Query handler (src/internal/grpc/server.go, TimeSeriesService) -/

/-- The repository collaborator:
`Query(ctx, start, end, window, aggregation) -> ([]DataPoint, error)`. -/
abbrev RepoFn := Int → Int → String → String → Except String (List DataPoint)

/-- Go `(*TimeSeriesService).QueryTimeSeries`: validate (invalid-argument
with the validator's message verbatim on failure), query the repository
(internal error wrapping the cause on failure), and map the rows to
protobuf points preserving order, times and values. -/
def QueryTimeSeries (repo : RepoFn) (req : TimeSeriesRequest) :
    Except StatusErr TimeSeriesResponse :=
  match Validate NewRequestValidator req.start req.endT req.window req.aggregation with
  | some msg => .error ⟨.invalidArgument, msg⟩
  | none =>
      match repo req.start req.endT req.window req.aggregation with
      | .error e => .error ⟨.internal, "query failed: " ++ e⟩
      | .ok dps => .ok ⟨dps.map (fun dp => ⟨dp.time, dp.value⟩)⟩

/-- C2: when validation fails, `QueryTimeSeries` returns an
invalid-argument status carrying the validator's message verbatim and its
result is independent of the repository (the repository is never
consulted); when validation passes and the repository errors, it returns an
internal status wrapping the cause; when the repository succeeds, the
response's data is exactly the repository's rows in order with times and
values preserved. -/
theorem C2_query_pipeline (req : TimeSeriesRequest) :
    (∀ (repo repo2 : RepoFn) (msg : String),
      Validate NewRequestValidator req.start req.endT req.window req.aggregation = some msg →
      QueryTimeSeries repo req = .error ⟨.invalidArgument, msg⟩ ∧
      QueryTimeSeries repo req = QueryTimeSeries repo2 req) ∧
    (∀ (repo : RepoFn) (e : String),
      Validate NewRequestValidator req.start req.endT req.window req.aggregation = none →
      repo req.start req.endT req.window req.aggregation = .error e →
      QueryTimeSeries repo req = .error ⟨.internal, "query failed: " ++ e⟩) ∧
    (∀ (repo : RepoFn) (dps : List DataPoint),
      Validate NewRequestValidator req.start req.endT req.window req.aggregation = none →
      repo req.start req.endT req.window req.aggregation = .ok dps →
      QueryTimeSeries repo req = .ok ⟨dps.map (fun dp => ⟨dp.time, dp.value⟩)⟩) := by
  refine ⟨?_, ?_, ?_⟩
  · intro repo repo2 msg hv
    constructor
    · simp only [QueryTimeSeries, hv]
    · simp only [QueryTimeSeries, hv]
  · intro repo e hv hr
    simp only [QueryTimeSeries, hv, hr]
  · intro repo dps hv hr
    simp only [QueryTimeSeries, hv, hr]

/-- Witness for C2: all three branches at concrete requests and repositories. -/
theorem C2_query_pipeline_witness :
    (QueryTimeSeries (fun _ _ _ _ => .ok []) ⟨0, 5, "1h", "AVG"⟩ =
      .error ⟨.invalidArgument, "missing timestamp"⟩ ∧
     QueryTimeSeries (fun _ _ _ _ => .ok []) ⟨0, 5, "1h", "AVG"⟩ =
      QueryTimeSeries (fun _ _ _ _ => .error "down") ⟨0, 5, "1h", "AVG"⟩) ∧
    QueryTimeSeries (fun _ _ _ _ => .error "db down") ⟨1, 2, "1h", "AVG"⟩ =
      .error ⟨.internal, "query failed: " ++ "db down"⟩ ∧
    QueryTimeSeries (fun _ _ _ _ => .ok [⟨3, 4⟩]) ⟨1, 2, "1h", "AVG"⟩ =
      .ok ⟨[(⟨3, 4⟩ : DataPoint)].map (fun dp => ⟨dp.time, dp.value⟩)⟩ :=
  ⟨(C2_query_pipeline ⟨0, 5, "1h", "AVG"⟩).1 (fun _ _ _ _ => .ok [])
      (fun _ _ _ _ => .error "down") "missing timestamp" (by decide),
   (C2_query_pipeline ⟨1, 2, "1h", "AVG"⟩).2.1 (fun _ _ _ _ => .error "db down")
      "db down" (by decide) rfl,
   (C2_query_pipeline ⟨1, 2, "1h", "AVG"⟩).2.2 (fun _ _ _ _ => .ok [⟨3, 4⟩])
      [⟨3, 4⟩] (by decide) rfl⟩

/-! ## Ingestion fetcher (src/internal/api/series_api.go) -/

/-- A decoded record of the upstream JSON payload:
`{time: unix-seconds, value: float64}`. -/
structure APIRecord where
  time : Int
  value : Int
  deriving DecidableEq, Repr

/-- `models.TimeSeriesData`: a point as stored
(`time.Unix(record.Time, 0)`, value). -/
structure TimeSeriesData where
  time : Int
  value : Int
  deriving DecidableEq, Repr

/-- The possible outcomes of the upstream HTTP GET for a window:
a transport error, a non-200 status, an undecodable body, or a decoded
payload. -/
inductive UpstreamOutcome where
  | reqError (msg : String)
  | badStatus (code : Nat)
  | decodeError (msg : String)
  | payload (records : List APIRecord)
  deriving DecidableEq, Repr

/-- The upstream collaborator as a function of the requested window
(instants in unix seconds for this component). -/
abbrev Upstream := Int → Int → UpstreamOutcome

/-- The store's `BatchInsertTimeSeriesData` collaborator: atomic, so a
failure leaves the store unchanged. -/
abbrev BatchInsert := List TimeSeriesData → Except String Unit

/-- The state observable around the fetcher: the store contents and the
log of issued upstream requests (one HTTP GET per `FetchData` call). -/
structure FetchWorld where
  store : List TimeSeriesData
  fetchLog : List (Int × Int)
  deriving DecidableEq, Repr


/-- The record-conversion and batch-insert tail of `FetchData`: convert the
decoded records to `TimeSeriesData` (`time.Unix(t, 0)`), attempt one atomic
insert, wrap its failure; on success append the points to the store. -/
def fetchInsert (insert : BatchInsert) (records : List APIRecord) (w1 : FetchWorld) :
    Except String Unit × FetchWorld :=
  match insert (records.map (fun q => (⟨q.time, q.value⟩ : TimeSeriesData))) with
  | .error e => (.error ("failed to insert data points: " ++ e), w1)
  | .ok _ =>
      (.ok (), { w1 with
        store := w1.store ++ records.map (fun q => (⟨q.time, q.value⟩ : TimeSeriesData)) })

/-- The response-handling part of `FetchData`, by upstream outcome:
transport error, bad status and decode failure are wrapped errors touching
nothing; an empty payload is a success with nothing to insert; a non-empty
payload proceeds to the insert. -/
def fetchDecode (outcome : UpstreamOutcome) (insert : BatchInsert) (w1 : FetchWorld) :
    Except String Unit × FetchWorld :=
  match outcome with
  | .reqError m => (.error ("error making API request: " ++ m), w1)
  | .badStatus c => (.error ("error status from API: got " ++ toString c), w1)
  | .decodeError m => (.error ("failed to decode response: " ++ m), w1)
  | .payload [] => (.ok (), w1)
  | .payload (r :: rest) => fetchInsert insert (r :: rest) w1

/-- Go `(*SeriesFetcher).FetchData(ctx, start, end)`: issue one upstream
GET for the window and handle the outcome.  (The 30s timeout and context
plumbing have no observable effect in this model.) -/
def FetchData (upstream : Upstream) (insert : BatchInsert) (start endT : Int)
    (w : FetchWorld) : Except String Unit × FetchWorld :=
  fetchDecode (upstream start endT) insert
    { w with fetchLog := w.fetchLog ++ [(start, endT)] }

/-- Go `endTime.AddDate(-2, 0, 0)`, modelled as two 365-day years in
seconds (exact calendar arithmetic is irrelevant to the claims). -/
def twoYearsBefore (t : Int) : Int := t - 2 * 365 * 86400

/-- Go `endTime.Add(-24 * time.Hour)` in seconds. -/
def dayBefore (t : Int) : Int := t - 86400

/-- Go `(*SeriesFetcher).BootstrapHistoricalData(ctx)`: one fetch for the
most recent 2 years; only if it fails, one fallback fetch for the most
recent 24 hours, whose failure is wrapped and returned. -/
def BootstrapHistoricalData (upstream : Upstream) (insert : BatchInsert) (now : Int)
    (w : FetchWorld) : Except String Unit × FetchWorld :=
  let endTime := now
  let startTime := twoYearsBefore endTime
  match FetchData upstream insert startTime endTime w with
  | (.ok _, w1) => (.ok (), w1)
  | (.error _, w1) =>
      let recentStart := dayBefore endTime
      match FetchData upstream insert recentStart endTime w1 with
      | (.ok _, w2) => (.ok (), w2)
      | (.error e, w2) => (.error ("failed to fetch recent data: " ++ e), w2)

lemma fetchData_log (upstream : Upstream) (insert : BatchInsert) (s e : Int)
    (w : FetchWorld) :
    (FetchData upstream insert s e w).2.fetchLog = w.fetchLog ++ [(s, e)] := by
  unfold FetchData
  cases hu : upstream s e with
  | reqError m => simp [fetchDecode]
  | badStatus c => simp [fetchDecode]
  | decodeError m => simp [fetchDecode]
  | payload records =>
    cases records with
    | nil => simp [fetchDecode]
    | cons r rest =>
      simp only [fetchDecode, fetchInsert]
      cases hi : insert ((r :: rest).map (fun q => (⟨q.time, q.value⟩ : TimeSeriesData))) with
      | error e2 => rfl
      | ok u => rfl

lemma fetchData_error_shape {upstream : Upstream} {insert : BatchInsert} {s e : Int}
    {w : FetchWorld} {m : String} {w1 : FetchWorld}
    (h : FetchData upstream insert s e w = (.error m, w1)) :
    w1 = ⟨w.store, w.fetchLog ++ [(s, e)]⟩ := by
  unfold FetchData at h
  cases hu : upstream s e with
  | reqError m2 =>
    rw [hu] at h
    simp only [fetchDecode, Prod.mk.injEq] at h
    exact h.2.symm
  | badStatus c =>
    rw [hu] at h
    simp only [fetchDecode, Prod.mk.injEq] at h
    exact h.2.symm
  | decodeError m2 =>
    rw [hu] at h
    simp only [fetchDecode, Prod.mk.injEq] at h
    exact h.2.symm
  | payload records =>
    rw [hu] at h
    cases records with
    | nil => simp [fetchDecode] at h
    | cons r rest =>
      simp only [fetchDecode, fetchInsert] at h
      cases hi : insert ((r :: rest).map (fun q => (⟨q.time, q.value⟩ : TimeSeriesData))) with
      | error e2 =>
        rw [hi] at h
        simp only [Prod.mk.injEq] at h
        exact h.2.symm
      | ok u =>
        rw [hi] at h
        simp at h

lemma fetchData_payload_ok (upstream : Upstream) (insert : BatchInsert) (s e : Int)
    (w : FetchWorld) (r : APIRecord) (rest : List APIRecord)
    (hu : upstream s e = .payload (r :: rest))
    (hins : insert ((r :: rest).map (fun q => (⟨q.time, q.value⟩ : TimeSeriesData))) = .ok ()) :
    FetchData upstream insert s e w =
      (.ok (), ⟨w.store ++ (r :: rest).map (fun q => (⟨q.time, q.value⟩ : TimeSeriesData)),
        w.fetchLog ++ [(s, e)]⟩) := by
  unfold FetchData
  rw [hu]
  simp only [fetchDecode, fetchInsert]
  rw [hins]

/-- C7: each `FetchData` call issues exactly one upstream request (first
conjunct); when the 2-year fetch succeeds, bootstrap returns its success
with no further fetch; when the 2-year fetch fails and the 24-hour window
yields a payload that inserts cleanly, bootstrap succeeds, exactly the two
windows were fetched, and a store that started empty contains only the
24-hour window's points; when both fetches fail, bootstrap returns the
wrapped error of the fallback. -/
theorem C7_bootstrap_fallback (upstream : Upstream) (insert : BatchInsert) (now : Int) :
    (∀ s e w, (FetchData upstream insert s e w).2.fetchLog = w.fetchLog ++ [(s, e)]) ∧
    (∀ w w1, FetchData upstream insert (twoYearsBefore now) now w = (.ok (), w1) →
      BootstrapHistoricalData upstream insert now w = (.ok (), w1)) ∧
    (∀ w e1 w1 (r : APIRecord) (rest : List APIRecord), w.store = [] →
      FetchData upstream insert (twoYearsBefore now) now w = (.error e1, w1) →
      upstream (dayBefore now) now = .payload (r :: rest) →
      insert ((r :: rest).map (fun q => (⟨q.time, q.value⟩ : TimeSeriesData))) = .ok () →
      BootstrapHistoricalData upstream insert now w =
        (.ok (), ⟨(r :: rest).map (fun q => (⟨q.time, q.value⟩ : TimeSeriesData)),
          w.fetchLog ++ [(twoYearsBefore now, now), (dayBefore now, now)]⟩)) ∧
    (∀ w e1 w1 e2 w2,
      FetchData upstream insert (twoYearsBefore now) now w = (.error e1, w1) →
      FetchData upstream insert (dayBefore now) now w1 = (.error e2, w2) →
      BootstrapHistoricalData upstream insert now w =
        (.error ("failed to fetch recent data: " ++ e2), w2)) := by
  refine ⟨fun s e w => fetchData_log upstream insert s e w, ?_, ?_, ?_⟩
  · intro w w1 h1
    simp only [BootstrapHistoricalData, h1]
  · intro w e1 w1 r rest hws h1 hu hins
    have hw1 := fetchData_error_shape h1
    rw [hws] at hw1
    subst hw1
    have h2 := fetchData_payload_ok upstream insert (dayBefore now) now
      ⟨[], w.fetchLog ++ [(twoYearsBefore now, now)]⟩ r rest hu hins
    simp only [BootstrapHistoricalData, h1, h2]
    simp
  · intro w e1 w1 e2 w2 h1 h2
    simp only [BootstrapHistoricalData, h1, h2]

/-- Witness for C7 in the fallback scenario: the 2-year window times out,
the 24-hour window yields one record, the insert succeeds. -/
theorem C7_bootstrap_fallback_witness :
    BootstrapHistoricalData
      (fun s _ => if s = twoYearsBefore 1000000 then .reqError "timeout"
        else .payload [⟨5, 7⟩])
      (fun _ => .ok ()) 1000000 ⟨[], []⟩ =
      (.ok (), ⟨[⟨5, 7⟩],
        [(twoYearsBefore 1000000, 1000000), (dayBefore 1000000, 1000000)]⟩) :=
  (C7_bootstrap_fallback
      (fun s _ => if s = twoYearsBefore 1000000 then .reqError "timeout"
        else .payload [⟨5, 7⟩])
      (fun _ => .ok ()) 1000000).2.2.1
    ⟨[], []⟩ ("error making API request: " ++ "timeout")
    ⟨[], [(twoYearsBefore 1000000, 1000000)]⟩ ⟨5, 7⟩ [] rfl rfl rfl rfl

/-! ## Server setup (src/internal/grpc/server.go) -/

/-- Go `ServerConfig`: documented to control the cache size and the rate
limiter of the server being built. -/
structure ServerConfig where
  CacheSize : Nat
  RateLimit : Int
  RateLimitBurst : Nat
  deriving DecidableEq, Repr

/-- Go `DefaultServerConfig()`. -/
def DefaultServerConfig : ServerConfig := ⟨1000, 5, 10⟩

/-- The middleware components a built server actually uses (the modelled
observable part of `*grpc.Server`). -/
structure BuiltServer where
  cache : LruCache
  limiter : LimiterState
  deriving DecidableEq, Repr

/-- Go `SetupServerWithRegistry`: constructs the middleware with the
hard-coded literals `NewCache(1000)` and `NewRateLimiter(5.0, 10)`. -/
def SetupServerWithRegistry : Except String BuiltServer :=
  match NewCache 1000 with
  | .error e => .error ("failed to create cache: " ++ e)
  | .ok c => .ok ⟨c, NewRateLimiter 5 10⟩

/-- Go `SetupServer(repo, config)`: delegates to `SetupServerWithRegistry`
without passing `config` on. -/
def SetupServer (_config : ServerConfig) : Except String BuiltServer :=
  SetupServerWithRegistry

/-- C8: `SetupServer` ignores its configuration.  At the non-default
config (CacheSize 7, RateLimit 2, RateLimitBurst 3) the built server still
uses cache capacity 1000 and a limiter at rate 5 with burst 10; the
default configuration only coincides with those hard-coded values. -/
theorem C8_setup_server_ignores_config :
    SetupServer ⟨7, 2, 3⟩ = .ok ⟨⟨1000, []⟩, ⟨5, 10, 10⟩⟩ ∧
    SetupServer DefaultServerConfig = .ok ⟨⟨1000, []⟩, ⟨5, 10, 10⟩⟩ ∧
    (7 : Nat) ≠ 1000 ∧ (2 : Int) ≠ 5 ∧ (3 : Nat) ≠ 10 :=
  ⟨rfl, rfl, by decide, by decide, by decide⟩
